import Mathlib

/-!
Shallow embedding of the research-turn core of the ai-hero repository:
the quota gate and chat store (`src/server/db/queries.ts`), the turn
endpoint (`src/app/api/chat/route.ts`), and the scrapePages tool caller.
The relational store is modelled as explicit row lists; `Date.now` style
timestamps are passed in as explicit `Nat` parameters; fallible database
operations return the error together with the store state at throw time,
so that partial mutation before an exception would be visible.
-/

namespace AiHero

/-- One typed fragment of a message (text, cited source, or tool invocation). -/
inductive Part
  | text (t : String)
  | source (url : String) (title : Option String)
  | toolInvocation (toolName : String) (state : String)
deriving DecidableEq

/-- An AI-SDK `Message` as received by the turn endpoint: `content` is
optional because the endpoint parses an untrusted JSON body (`content?.`
optional chaining in route.ts). -/
structure Msg where
  role : String
  content : Option String
  parts : List Part
deriving DecidableEq

/-- A row of the `chats` table. -/
structure ChatRow where
  id : String
  userId : String
  title : String
  createdAt : Nat
  updatedAt : Nat
deriving DecidableEq

/-- A row of the `messages` table (the DB-generated surrogate id column is
omitted: no claim mentions it). -/
structure MessageRow where
  chatId : String
  role : String
  parts : List Part
  order : Nat
deriving DecidableEq

/-- A row of the `requests` table (the RequestRecord ledger). -/
structure RequestRow where
  userId : String
  createdAt : Nat
deriving DecidableEq

/-- A row of the `users` table. -/
structure UserRow where
  id : String
  isAdmin : Bool
deriving DecidableEq

/-- The relational store. -/
structure Db where
  users : List UserRow
  chats : List ChatRow
  messages : List MessageRow
  requests : List RequestRow
deriving DecidableEq

/-- `const DAILY_REQUEST_LIMIT = 50` in queries.ts. -/
def DAILY_REQUEST_LIMIT : Nat := 50

/-- The rows matched by the count query of `getUserRequestCountToday`:
`where(and(eq(requests.userId, userId), gte(requests.createdAt, today)))`,
with `today` set to the local midnight boundary. -/
def dailyRequestRows (db : Db) (midnight : Nat) (userId : String) : List RequestRow :=
  db.requests.filter (fun r => r.userId == userId && decide (midnight ≤ r.createdAt))

/-- Models `result[0]?.count ?? 0` in `getUserRequestCountToday`: the rows
returned by the count select are coalesced to 0 when no usable row exists. -/
def requestCountFromRows (rows : List Nat) : Nat :=
  rows.head?.getD 0

/-- `getUserRequestCountToday`: on a healthy store the count select returns
exactly one row holding the number of matching request rows. -/
def getUserRequestCountToday (db : Db) (midnight : Nat) (userId : String) : Nat :=
  requestCountFromRows [(dailyRequestRows db midnight userId).length]

/-- `isUserAdmin`: `result[0]?.isAdmin ?? false`. -/
def isUserAdmin (db : Db) (userId : String) : Bool :=
  (((db.users.filter (fun u => u.id == userId)).head?).map UserRow.isAdmin).getD false

/-- `recordUserRequest`: appends one RequestRecord. -/
def recordUserRequest (db : Db) (now : Nat) (userId : String) : Db :=
  { db with requests := db.requests ++ [⟨userId, now⟩] }

/-- Result of `checkRateLimit`; `remaining` and `limit` are integers because
admins receive the sentinel -1. -/
structure RateLimitResult where
  allowed : Bool
  remaining : Int
  limit : Int
deriving DecidableEq

/-- The tail of `checkRateLimit` factored over the raw rows returned by the
count query, exposing the `result[0]?.count ?? 0` coalescing path. -/
def checkRateLimitFromRows (isAdmin : Bool) (rows : List Nat) : RateLimitResult :=
  if isAdmin then ⟨true, -1, -1⟩
  else
    let requestCount := requestCountFromRows rows
    ⟨decide (requestCount < DAILY_REQUEST_LIMIT),
     max 0 ((DAILY_REQUEST_LIMIT : Int) - (requestCount : Int)),
     (DAILY_REQUEST_LIMIT : Int)⟩

/-- `checkRateLimit` from queries.ts. -/
def checkRateLimit (db : Db) (midnight : Nat) (userId : String) : RateLimitResult :=
  checkRateLimitFromRows (isUserAdmin db userId)
    [(dailyRequestRows db midnight userId).length]

/-- The errors `upsertChat` can throw. -/
inductive DbError
  | PermissionDenied
  | TitleRequired
deriving DecidableEq

/-- JS truthiness of `!title` for `title : string | undefined`: true when the
title is absent or the empty string. -/
def titleFalsy : Option String → Bool
  | none => true
  | some t => t == ""

/-- Outcome of `upsertChat`: the error (if thrown) together with the store
state at that point — writes performed before a throw would persist. -/
structure UpsertResult where
  error : Option DbError
  db : Db
deriving DecidableEq

/-- `select().from(chats).where(eq(chats.id, chatId)).limit(1)`. -/
def findChat (db : Db) (chatId : String) : Option ChatRow :=
  (db.chats.filter (fun c => c.id == chatId)).head?

/-- `db.delete(messages).where(eq(messages.chatId, chatId))`. -/
def deleteMessagesFor (db : Db) (chatId : String) : Db :=
  { db with messages := db.messages.filter (fun m => !(m.chatId == chatId)) }

/-- `db.update(chats).set(updateData).where(eq(chats.id, chatId))`. -/
def updateChatRow (db : Db) (chatId newTitle : String) (now : Nat) : Db :=
  { db with chats := db.chats.map (fun c =>
      if c.id == chatId then { c with title := newTitle, updatedAt := now } else c) }

/-- `db.insert(chats).values({id, userId, title})`. -/
def insertChatRow (db : Db) (chatId userId title : String) (now : Nat) : Db :=
  { db with chats := db.chats ++ [⟨chatId, userId, title, now, now⟩] }

/-- `messageList.map((message, index) => ({chatId, role, parts, order: index}))`. -/
def messageRowsFor (chatId : String) (messageList : List Msg) : List MessageRow :=
  messageList.enum.map (fun p => ⟨chatId, p.2.role, p.2.parts, p.1⟩)

/-- The trailing bulk insert of `upsertChat`: only runs when the list is
non-empty (`if (messageList.length > 0)`). -/
def insertMessages (db : Db) (chatId : String) (messageList : List Msg) : Db :=
  if messageList.length > 0 then
    { db with messages := db.messages ++ messageRowsFor chatId messageList }
  else db

/-- `upsertChat` from queries.ts: ownership check before any delete or write;
`TitleRequired` for a new chat with a falsy title; full message-set
replacement with `order = index`; title preserved when none is supplied. -/
def upsertChat (db : Db) (now : Nat) (userId chatId : String) (title : Option String)
    (messageList : List Msg) : UpsertResult :=
  match findChat db chatId with
  | some chat =>
      if !(chat.userId == userId) then ⟨some DbError.PermissionDenied, db⟩
      else
        let db1 := deleteMessagesFor db chatId
        let db2 := updateChatRow db1 chatId (title.getD chat.title) now
        ⟨none, insertMessages db2 chatId messageList⟩
  | none =>
      if titleFalsy title then ⟨some DbError.TitleRequired, db⟩
      else
        ⟨none, insertMessages (insertChatRow db chatId userId (title.getD "") now)
          chatId messageList⟩

/-- The persisted message set of one chat (the rows matched by
`eq(messages.chatId, chatId)`). -/
def messagesOf (db : Db) (chatId : String) : List MessageRow :=
  db.messages.filter (fun m => m.chatId == chatId)

/-- Insert one row into a list sorted ascending by `order`. -/
def insertByOrder (m : MessageRow) : List MessageRow → List MessageRow
  | [] => [m]
  | x :: xs => if m.order ≤ x.order then m :: x :: xs else x :: insertByOrder m xs

/-- `orderBy(asc(messages.order))`. -/
def sortByOrder (rows : List MessageRow) : List MessageRow :=
  rows.foldr insertByOrder []

/-- The non-null result of `getChat`. -/
structure ChatWithMessages where
  chat : ChatRow
  messages : List Msg
deriving DecidableEq

/-- `getChat` from queries.ts: one select filtered on both the chat id and
the owner; null when that select is empty; otherwise the chat together with
its messages ordered by `order` (content is rebuilt as the empty string). -/
def getChat (db : Db) (chatId userId : String) : Option ChatWithMessages :=
  match (db.chats.filter (fun c => c.id == chatId && c.userId == userId)).head? with
  | none => none
  | some chat =>
      let rows := sortByOrder (messagesOf db chatId)
      some ⟨chat, rows.map (fun m => ⟨m.role, some "", m.parts⟩)⟩

/-- `messages.find((msg) => msg.role === "user")` in route.ts. -/
def firstUserMessage (msgs : List Msg) : Option Msg :=
  msgs.find? (fun m => m.role == "user")

/-- `firstUserMessage?.content?.slice(0, 100) ?? "New Chat"` in route.ts:
the title derived for the current turn. -/
def deriveTitle (msgs : List Msg) : String :=
  match firstUserMessage msgs with
  | some m =>
      match m.content with
      | some c => c.take 100
      | none => "New Chat"
  | none => "New Chat"

/-- The placeholder write route.ts performs before the model call:
`upsertChat({userId, chatId, title, messages: []})` with the derived title. -/
def routePlaceholderWrite (db : Db) (now : Nat) (userId chatId : String)
    (bodyMessages : List Msg) : UpsertResult :=
  upsertChat db now userId chatId (some (deriveTitle bodyMessages)) []

/-- The `onFinish` final durable write of route.ts: the `upsertChat` promise
rejection is caught and logged (`.catch(error => console.error("Failed to
save chat:", error))`), never rethrown. Returns the resulting store and the
console log entries. -/
def routeOnFinish (db : Db) (now : Nat) (userId chatId title : String)
    (updatedMessages : List Msg) : Db × List String :=
  let r := upsertChat db now userId chatId (some title) updatedMessages
  (r.db,
    match r.error with
    | some _ => ["Failed to save chat:"]
    | none => [])

/-- The caller-visible outcome of one turn at finish time: the streamed
response (already delivered by `createDataStreamResponse` before `onFinish`
runs), the final store, and the console log. -/
structure TurnOutcome where
  response : String
  db : Db
  log : List String
deriving DecidableEq

/-- Finishing a turn in route.ts: the streamed response is fixed before the
final durable write runs; the write only affects the store and the log. -/
def finishTurn (streamedResponse : String) (db : Db) (now : Nat)
    (userId chatId title : String) (updatedMessages : List Msg) : TurnOutcome :=
  let r := routeOnFinish db now userId chatId title updatedMessages
  ⟨streamedResponse, r.1, r.2⟩

/-- Extracted markdown content of one successfully crawled page. -/
structure CrawlData where
  markdown : String
deriving DecidableEq

/-- The per-URL result record inside `bulkCrawlWebsites`'s response, as
consumed by scrapePages (`r.result.success`, `r.result.data`,
`r.result.error`). -/
structure CrawlInner where
  success : Bool
  data : Option CrawlData
  error : Option String
deriving DecidableEq

/-- One entry of `result.results`: a url paired with its per-URL result. -/
structure PerUrlResult where
  url : String
  result : CrawlInner
deriving DecidableEq

/-- The value returned by `bulkCrawlWebsites`. -/
structure BulkCrawlResponse where
  success : Bool
  error : Option String
  results : List PerUrlResult
deriving DecidableEq

/-- Modelled from the spec: the body of `bulkCrawlWebsites` (the BulkCrawler,
imported as `~/scraper`) is not under src/ — only its caller is. Per the
spec, `crawl(urls)` returns one CrawlResult per input URL in input order
(partial failure never shrinks the output set) and the top-level `success`
is true only if every URL succeeded. The per-URL pipeline
(robots check, fetch with retry, extraction, caching) is abstracted as the
function `pipeline` giving each URL's final outcome. -/
def bulkCrawlWebsites (pipeline : String → CrawlInner) (urls : List String) :
    BulkCrawlResponse :=
  let results := urls.map (fun u => ⟨u, pipeline u⟩)
  { success := results.all (fun r => r.result.success),
    error :=
      if results.all (fun r => r.result.success) then none
      else some "Some URLs failed to crawl",
    results := results }

/-- The payload the scrapePages tool places in one output entry:
`r.result.success ? r.result.data : r.result.error`. -/
inductive EntryData
  | crawled (d : Option CrawlData)
  | failed (e : Option String)
deriving DecidableEq

/-- One entry of the scrapePages tool result; the error branch carries the
per-URL success flag, the success branch omits it. -/
structure ScrapeEntry where
  url : String
  success : Option Bool
  data : EntryData
deriving DecidableEq

/-- The scrapePages tool result: either the error-branch object
`{error, results}` or the success-branch object `{success: true, results}`. -/
structure ScrapeOutcome where
  success : Option Bool
  error : Option String
  entries : List ScrapeEntry
deriving DecidableEq

/-- `scrapePages.execute` from the turn endpoint: calls `bulkCrawlWebsites`
and maps its `results` one-to-one into the tool result, in both the error
branch and the success branch. -/
def scrapePagesExecute (pipeline : String → CrawlInner) (urls : List String) :
    ScrapeOutcome :=
  let result := bulkCrawlWebsites pipeline urls
  if !result.success then
    { success := none,
      error := result.error,
      entries := result.results.map (fun r =>
        ⟨r.url, some r.result.success,
          if r.result.success then EntryData.crawled r.result.data
          else EntryData.failed r.result.error⟩) }
  else
    { success := some true,
      error := none,
      entries := result.results.map (fun r =>
        ⟨r.url, none, EntryData.crawled r.result.data⟩) }

/-! ## Theorems -/

/-- C1: for every chat that already exists and every userId different from
that chat's creating userId, `upsertChat` with that userId fails with the
PermissionDenied error and leaves the store — in particular the chat's
persisted message set, title, and updatedAt — completely unchanged: the
ownership check happens before any delete or write. -/
theorem upsertChat_permission_denied
    (db : Db) (now : Nat) (userId chatId : String) (title : Option String)
    (messageList : List Msg) (chat : ChatRow)
    (hfind : findChat db chatId = some chat) (hneq : chat.userId ≠ userId) :
    upsertChat db now userId chatId title messageList =
      ⟨some DbError.PermissionDenied, db⟩ := by
  unfold upsertChat
  rw [hfind]
  simp [hneq]

/-- C1 witness: a chat owned by alice, upserted by bob, at concrete inputs. -/
theorem upsertChat_permission_denied_witness :
    upsertChat ⟨[], [⟨"c1", "alice", "T", 0, 0⟩], [], []⟩ 5 "bob" "c1" none [] =
      ⟨some DbError.PermissionDenied, ⟨[], [⟨"c1", "alice", "T", 0, 0⟩], [], []⟩⟩ :=
  upsertChat_permission_denied _ 5 "bob" "c1" none [] ⟨"c1", "alice", "T", 0, 0⟩
    (by decide) (by decide)

/-- C8: for every call to `upsertChat` where no chat with the given chatId
exists and no title is supplied, the call fails with the TitleRequired error
and creates neither a chat row nor any message rows (the store is returned
unchanged). -/
theorem upsertChat_title_required
    (db : Db) (now : Nat) (userId chatId : String) (messageList : List Msg)
    (hfind : findChat db chatId = none) :
    upsertChat db now userId chatId none messageList =
      ⟨some DbError.TitleRequired, db⟩ := by
  unfold upsertChat
  rw [hfind]
  rfl

/-- C8 witness: an empty store, a fresh chatId, no title. -/
theorem upsertChat_title_required_witness :
    upsertChat ⟨[], [], [], []⟩ 0 "u" "c9" none [⟨"user", some "hi", []⟩] =
      ⟨some DbError.TitleRequired, ⟨[], [], [], []⟩⟩ :=
  upsertChat_title_required _ 0 "u" "c9" _ (by decide)

/-- C2: `getChat` returns null both when no chat with that id exists and when
every chat with that id belongs to a different user, and the two results are
indistinguishable: the non-owner result equals the result for a chatId that
does not exist at all. -/
theorem getChat_existence_hiding
    (db : Db) (chatId userId missingId : String)
    (hno : ∀ c ∈ db.chats, c.id = chatId → c.userId ≠ userId)
    (hmissing : ∀ c ∈ db.chats, c.id ≠ missingId) :
    getChat db chatId userId = none ∧
      getChat db chatId userId = getChat db missingId userId := by
  have h1 : db.chats.filter (fun c => c.id == chatId && c.userId == userId) = [] := by
    rw [List.filter_eq_nil_iff]
    intro c hc
    simp only [Bool.and_eq_true, beq_iff_eq, not_and]
    exact hno c hc
  have h2 : db.chats.filter (fun c => c.id == missingId && c.userId == userId) = [] := by
    rw [List.filter_eq_nil_iff]
    intro c hc
    simp only [Bool.and_eq_true, beq_iff_eq, not_and]
    intro hid
    exact absurd hid (hmissing c hc)
  refine ⟨?_, ?_⟩
  · unfold getChat
    rw [h1]
    rfl
  · unfold getChat
    rw [h1, h2]
    rfl

/-- C2 witness: a chat owned by alice read by bob, compared against a chatId
that does not exist at all. -/
theorem getChat_existence_hiding_witness :
    getChat ⟨[], [⟨"c1", "alice", "T", 0, 0⟩], [], []⟩ "c1" "bob" = none ∧
      getChat ⟨[], [⟨"c1", "alice", "T", 0, 0⟩], [], []⟩ "c1" "bob" =
        getChat ⟨[], [⟨"c1", "alice", "T", 0, 0⟩], [], []⟩ "nope" "bob" :=
  getChat_existence_hiding _ "c1" "bob" "nope" (by decide) (by decide)

/-- C4 (code bug, fail-open): when the count query returns no usable row,
`result[0]?.count ?? 0` coalesces the missing count to 0, so the gate answers
allowed=true with full remaining quota for a non-admin — it fails open,
contradicting the fail-closed requirement that a storage error never be
treated as a count of zero allowing the request through. -/
theorem countQuery_empty_result_fails_open :
    checkRateLimitFromRows false [] =
      ⟨true, (DAILY_REQUEST_LIMIT : Int), (DAILY_REQUEST_LIMIT : Int)⟩ := by
  decide

/-- C6: for every input URL list of size N, the bulk crawl returns exactly N
per-URL results; the top-level success flag is true only if (indeed, exactly
if) every URL succeeded; and the scrapePages tool result preserves the
one-entry-per-URL correspondence in both its success and error branches. -/
theorem scrapePages_one_entry_per_url
    (pipeline : String → CrawlInner) (urls : List String) :
    (bulkCrawlWebsites pipeline urls).results.length = urls.length ∧
    ((bulkCrawlWebsites pipeline urls).success = true ↔
      ∀ u ∈ urls, (pipeline u).success = true) ∧
    (scrapePagesExecute pipeline urls).entries.map ScrapeEntry.url = urls := by
  refine ⟨?_, ?_, ?_⟩
  · simp [bulkCrawlWebsites]
  · simp [bulkCrawlWebsites, List.all_eq_true]
  · cases h : (urls.map (fun u => (⟨u, pipeline u⟩ : PerUrlResult))).all
        (fun r => r.result.success)
    · simp only [scrapePagesExecute, bulkCrawlWebsites, h]
      simp [h]
      exact List.map_id urls
    · simp only [scrapePagesExecute, bulkCrawlWebsites, h]
      simp [h]
      exact List.map_id urls

/-- C7: the turn's response to the caller is the already-delivered stream,
unaffected by whether the final durable write succeeds or fails; a failure of
that second write is logged (console.error "Failed to save chat:") and not
propagated. -/
theorem finalWrite_failure_logged_not_propagated
    (streamed : String) (db db2 : Db) (now now2 : Nat)
    (userId chatId title userId2 chatId2 title2 : String)
    (m m2 : List Msg)
    (hfail : (upsertChat db now userId chatId (some title) m).error.isSome = true) :
    (finishTurn streamed db now userId chatId title m).response =
      (finishTurn streamed db2 now2 userId2 chatId2 title2 m2).response ∧
    (finishTurn streamed db now userId chatId title m).log =
      ["Failed to save chat:"] := by
  refine ⟨rfl, ?_⟩
  obtain ⟨e, h⟩ := Option.isSome_iff_exists.mp hfail
  simp [finishTurn, routeOnFinish, h]

/-- C7 witness: a failing final write (ownership mismatch) next to a turn
with entirely different write arguments; the response is the same stream and
the failure is logged. -/
theorem finalWrite_failure_logged_not_propagated_witness :
    (finishTurn "answer" ⟨[], [⟨"c1", "alice", "T", 0, 0⟩], [], []⟩ 7
        "bob" "c1" "t" []).response =
      (finishTurn "answer" ⟨[], [], [], []⟩ 0 "x" "y" "z" []).response ∧
    (finishTurn "answer" ⟨[], [⟨"c1", "alice", "T", 0, 0⟩], [], []⟩ 7
        "bob" "c1" "t" []).log = ["Failed to save chat:"] :=
  finalWrite_failure_logged_not_propagated "answer" _ _ 7 0 "bob" "c1" "t"
    "x" "y" "z" [] [] (by decide)

/-- C9: the derived title of a new chat equals the first user message's
primary text content truncated to 100 characters, and equals the constant
default "New Chat" when no text content is extractable from any user message
(every user message lacks a content field). -/
theorem deriveTitle_spec :
    (∀ (msgs : List Msg) (m : Msg) (c : String),
        firstUserMessage msgs = some m → m.content = some c →
        deriveTitle msgs = c.take 100) ∧
    (∀ msgs : List Msg,
        (∀ m ∈ msgs, m.role = "user" → m.content = none) →
        deriveTitle msgs = "New Chat") := by
  refine ⟨?_, ?_⟩
  · intro msgs m c hfind hc
    simp [deriveTitle, hfind, hc]
  · intro msgs hall
    rcases h : firstUserMessage msgs with _ | m
    · simp [deriveTitle, h]
    · have hm : m ∈ msgs := List.mem_of_find?_eq_some h
      have hrole : m.role = "user" := by simpa using List.find?_some h
      simp [deriveTitle, h, hall m hm hrole]

/-- C9 witness: a user message with text content yields its 100-character
truncation; a history whose user messages carry no content yields the
default. -/
theorem deriveTitle_spec_witness :
    deriveTitle [⟨"user", some "Hello world", []⟩] = "Hello world".take 100 ∧
    deriveTitle [⟨"assistant", some "hi", []⟩, ⟨"user", none, []⟩] = "New Chat" :=
  ⟨deriveTitle_spec.1 _ ⟨"user", some "Hello world", []⟩ "Hello world" rfl rfl,
   deriveTitle_spec.2 _ (by decide)⟩

/-! ## Helper lemmas about the chat store -/

/-- Deleting a chat's messages leaves that chat with no persisted messages. -/
lemma messagesOf_deleteMessagesFor (db : Db) (chatId : String) :
    messagesOf (deleteMessagesFor db chatId) chatId = [] := by
  unfold messagesOf deleteMessagesFor
  rw [List.filter_filter, List.filter_eq_nil_iff]
  intro m _
  simp

/-- Updating a chat row does not touch the messages table. -/
lemma messagesOf_updateChatRow (db : Db) (chatId newTitle : String) (now : Nat)
    (cid : String) :
    messagesOf (updateChatRow db chatId newTitle now) cid = messagesOf db cid := rfl

/-- Inserting a chat row does not touch the messages table. -/
lemma messagesOf_insertChatRow (db : Db) (chatId userId title : String) (now : Nat)
    (cid : String) :
    messagesOf (insertChatRow db chatId userId title now) cid = messagesOf db cid := rfl

/-- Every row built by the bulk insert carries the chat's id. -/
lemma messageRowsFor_filter_self (chatId : String) (messageList : List Msg) :
    (messageRowsFor chatId messageList).filter (fun m => m.chatId == chatId) =
      messageRowsFor chatId messageList := by
  rw [List.filter_eq_self]
  intro row hrow
  unfold messageRowsFor at hrow
  obtain ⟨p, _, rfl⟩ := List.mem_map.mp hrow
  simp

/-- The bulk insert appends exactly the rows of the given message list to the
chat's persisted message set. -/
lemma messagesOf_insertMessages (db : Db) (chatId : String) (messageList : List Msg) :
    messagesOf (insertMessages db chatId messageList) chatId =
      messagesOf db chatId ++ messageRowsFor chatId messageList := by
  unfold insertMessages
  split
  · unfold messagesOf
    rw [List.filter_append, messageRowsFor_filter_self]
  · have hnil : messageList = [] := by
      rename_i hlen
      simpa using List.length_eq_zero.mp (by omega)
    subst hnil
    simp [messageRowsFor]

/-- Shape of a successful `upsertChat` on an existing owned chat: delete the
message set, update title/updatedAt, bulk insert the new list. -/
lemma upsertChat_owned_eq (db : Db) (now : Nat) (userId chatId : String)
    (title : Option String) (messageList : List Msg) (chat : ChatRow)
    (hfind : findChat db chatId = some chat) (hown : chat.userId = userId) :
    upsertChat db now userId chatId title messageList =
      ⟨none, insertMessages
        (updateChatRow (deleteMessagesFor db chatId) chatId (title.getD chat.title) now)
        chatId messageList⟩ := by
  unfold upsertChat
  rw [hfind]
  simp [hown]

/-- A successful `upsertChat` on an existing owned chat succeeds and leaves
the chat's persisted message set equal to the inserted rows. -/
lemma upsertChat_owned_messages (db : Db) (now : Nat) (userId chatId : String)
    (title : Option String) (messageList : List Msg) (chat : ChatRow)
    (hfind : findChat db chatId = some chat) (hown : chat.userId = userId) :
    (upsertChat db now userId chatId title messageList).error = none ∧
    messagesOf (upsertChat db now userId chatId title messageList).db chatId =
      messageRowsFor chatId messageList := by
  rw [upsertChat_owned_eq db now userId chatId title messageList chat hfind hown]
  refine ⟨rfl, ?_⟩
  rw [messagesOf_insertMessages, messagesOf_updateChatRow, messagesOf_deleteMessagesFor]
  rfl

/-- After a successful `upsertChat` on an existing owned chat, the chat still
exists and is still owned by the same user. -/
lemma upsertChat_owned_findChat (db : Db) (now : Nat) (userId chatId : String)
    (title : Option String) (messageList : List Msg) (chat : ChatRow)
    (hfind : findChat db chatId = some chat) (hown : chat.userId = userId) :
    ∃ chat2 : ChatRow,
      findChat (upsertChat db now userId chatId title messageList).db chatId =
        some chat2 ∧ chat2.userId = userId := by
  rw [upsertChat_owned_eq db now userId chatId title messageList chat hfind hown]
  have hchats : (insertMessages
      (updateChatRow (deleteMessagesFor db chatId) chatId (title.getD chat.title) now)
      chatId messageList).chats =
      db.chats.map (fun c =>
        if c.id == chatId then { c with title := title.getD chat.title, updatedAt := now }
        else c) := by
    unfold insertMessages
    split <;> rfl
  refine ⟨(fun c => if c.id == chatId then
      { c with title := title.getD chat.title, updatedAt := now } else c) chat, ?_, ?_⟩
  · unfold findChat
    rw [hchats, List.filter_map]
    have hpred : ∀ c : ChatRow,
        ((fun c : ChatRow => c.id == chatId) ∘ (fun c =>
          if c.id == chatId then
            { c with title := title.getD chat.title, updatedAt := now }
          else c)) c = (fun c : ChatRow => c.id == chatId) c := by
      intro c
      by_cases h : c.id = chatId <;> simp [h]
    rw [List.filter_congr (fun c _ => hpred c), List.head?_map]
    unfold findChat at hfind
    rw [hfind]
    rfl
  · by_cases h : chat.id = chatId <;> simp [h, hown]

/-- The `order` column of the bulk-inserted rows is exactly the run of array
indices 0, 1, …, length−1. -/
lemma messageRowsFor_orders (chatId : String) (messageList : List Msg) :
    (messageRowsFor chatId messageList).map MessageRow.order =
      List.range messageList.length := by
  unfold messageRowsFor
  rw [List.map_map]
  exact List.enum_map_fst messageList

/-- C5: `upsertChat` on an owned chat replaces the entire persisted message
set with rows whose order equals the array index, so both the first call and
a second call with the same messages array succeed and leave the set dense,
zero-based, matching array position, with no duplicate order values. -/
theorem upsertChat_structural_idempotence
    (db : Db) (now1 now2 : Nat) (userId chatId : String) (title : Option String)
    (msgs : List Msg) (chat : ChatRow)
    (hfind : findChat db chatId = some chat) (hown : chat.userId = userId) :
    (upsertChat db now1 userId chatId title msgs).error = none ∧
    (upsertChat (upsertChat db now1 userId chatId title msgs).db
        now2 userId chatId title msgs).error = none ∧
    messagesOf (upsertChat db now1 userId chatId title msgs).db chatId =
      messageRowsFor chatId msgs ∧
    messagesOf (upsertChat (upsertChat db now1 userId chatId title msgs).db
        now2 userId chatId title msgs).db chatId = messageRowsFor chatId msgs ∧
    (messageRowsFor chatId msgs).map MessageRow.order = List.range msgs.length ∧
    ((messageRowsFor chatId msgs).map MessageRow.order).Nodup := by
  obtain ⟨h1err, h1msgs⟩ :=
    upsertChat_owned_messages db now1 userId chatId title msgs chat hfind hown
  obtain ⟨chat2, hfind2, hown2⟩ :=
    upsertChat_owned_findChat db now1 userId chatId title msgs chat hfind hown
  obtain ⟨h2err, h2msgs⟩ :=
    upsertChat_owned_messages _ now2 userId chatId title msgs chat2 hfind2 hown2
  refine ⟨h1err, h2err, h1msgs, h2msgs, messageRowsFor_orders chatId msgs, ?_⟩
  rw [messageRowsFor_orders chatId msgs]
  exact List.nodup_range _

/-- C5 witness: a two-message history written twice to an owned chat at
concrete inputs. -/
theorem upsertChat_structural_idempotence_witness :
    (upsertChat ⟨[], [⟨"c1", "alice", "T", 0, 0⟩], [⟨"c1", "user", [], 0⟩], []⟩
        3 "alice" "c1" (some "T2")
        [⟨"user", some "q", [Part.text "q"]⟩, ⟨"assistant", some "", [Part.text "a"]⟩]).error
      = none ∧
    (upsertChat (upsertChat ⟨[], [⟨"c1", "alice", "T", 0, 0⟩], [⟨"c1", "user", [], 0⟩], []⟩
        3 "alice" "c1" (some "T2")
        [⟨"user", some "q", [Part.text "q"]⟩, ⟨"assistant", some "", [Part.text "a"]⟩]).db
        4 "alice" "c1" (some "T2")
        [⟨"user", some "q", [Part.text "q"]⟩, ⟨"assistant", some "", [Part.text "a"]⟩]).error
      = none ∧
    messagesOf (upsertChat ⟨[], [⟨"c1", "alice", "T", 0, 0⟩], [⟨"c1", "user", [], 0⟩], []⟩
        3 "alice" "c1" (some "T2")
        [⟨"user", some "q", [Part.text "q"]⟩, ⟨"assistant", some "", [Part.text "a"]⟩]).db "c1"
      = messageRowsFor "c1"
          [⟨"user", some "q", [Part.text "q"]⟩, ⟨"assistant", some "", [Part.text "a"]⟩] ∧
    messagesOf (upsertChat (upsertChat
        ⟨[], [⟨"c1", "alice", "T", 0, 0⟩], [⟨"c1", "user", [], 0⟩], []⟩
        3 "alice" "c1" (some "T2")
        [⟨"user", some "q", [Part.text "q"]⟩, ⟨"assistant", some "", [Part.text "a"]⟩]).db
        4 "alice" "c1" (some "T2")
        [⟨"user", some "q", [Part.text "q"]⟩, ⟨"assistant", some "", [Part.text "a"]⟩]).db "c1"
      = messageRowsFor "c1"
          [⟨"user", some "q", [Part.text "q"]⟩, ⟨"assistant", some "", [Part.text "a"]⟩] ∧
    (messageRowsFor "c1"
        [⟨"user", some "q", [Part.text "q"]⟩,
         ⟨"assistant", some "", [Part.text "a"]⟩]).map MessageRow.order =
      List.range 2 ∧
    ((messageRowsFor "c1"
        [⟨"user", some "q", [Part.text "q"]⟩,
         ⟨"assistant", some "", [Part.text "a"]⟩]).map MessageRow.order).Nodup :=
  upsertChat_structural_idempotence _ 3 4 "alice" "c1" (some "T2") _
    ⟨"c1", "alice", "T", 0, 0⟩ (by decide) (by decide)

/-- C10: on an existing owned chat, the turn endpoint's placeholder write
(`upsertChat` with an empty messages array) succeeds, deletes every persisted
message of that chat and inserts none, leaving the chat with zero messages in
storage until the final write of the turn. -/
theorem placeholderWrite_erases_history
    (db : Db) (now : Nat) (userId chatId : String) (body : List Msg) (chat : ChatRow)
    (hfind : findChat db chatId = some chat) (hown : chat.userId = userId) :
    (routePlaceholderWrite db now userId chatId body).error = none ∧
    messagesOf (routePlaceholderWrite db now userId chatId body).db chatId = [] := by
  unfold routePlaceholderWrite
  obtain ⟨herr, hmsgs⟩ := upsertChat_owned_messages db now userId chatId
    (some (deriveTitle body)) [] chat hfind hown
  exact ⟨herr, by rw [hmsgs]; rfl⟩

/-- C10 witness: an owned chat with a two-row history is left with zero
persisted messages by the placeholder write. -/
theorem placeholderWrite_erases_history_witness :
    (routePlaceholderWrite
        ⟨[], [⟨"c1", "alice", "T", 0, 0⟩],
         [⟨"c1", "user", [Part.text "q"], 0⟩, ⟨"c1", "assistant", [Part.text "a"], 1⟩],
         []⟩ 9 "alice" "c1" [⟨"user", some "again", []⟩]).error = none ∧
    messagesOf (routePlaceholderWrite
        ⟨[], [⟨"c1", "alice", "T", 0, 0⟩],
         [⟨"c1", "user", [Part.text "q"], 0⟩, ⟨"c1", "assistant", [Part.text "a"], 1⟩],
         []⟩ 9 "alice" "c1" [⟨"user", some "again", []⟩]).db "c1" = [] :=
  placeholderWrite_erases_history _ 9 "alice" "c1" _ ⟨"c1", "alice", "T", 0, 0⟩
    (by decide) (by decide)

/-! ## Helper lemmas about the quota gate -/

/-- Recording requests never touches the users table. -/
lemma users_foldl_recordUserRequest (times : List Nat) (db : Db) (userId : String) :
    ((times.foldl (fun d t => recordUserRequest d t userId) db)).users = db.users := by
  induction times generalizing db with
  | nil => rfl
  | cons t ts ih => simpa using ih (recordUserRequest db t userId)

/-- Recording one request at or after midnight adds exactly one row to the
user's daily request rows. -/
lemma dailyRequestRows_record (db : Db) (now midnight : Nat) (userId : String)
    (h : midnight ≤ now) :
    dailyRequestRows (recordUserRequest db now userId) midnight userId =
      dailyRequestRows db midnight userId ++ [⟨userId, now⟩] := by
  unfold dailyRequestRows recordUserRequest
  rw [List.filter_append]
  simp [h]

/-- Recording a batch of same-day requests grows the user's daily count by
the batch size. -/
lemma dailyRequestRows_foldl (times : List Nat) (db : Db) (midnight : Nat)
    (userId : String) (hday : ∀ t ∈ times, midnight ≤ t) :
    (dailyRequestRows (times.foldl (fun d t => recordUserRequest d t userId) db)
        midnight userId).length =
      (dailyRequestRows db midnight userId).length + times.length := by
  induction times generalizing db with
  | nil => simp
  | cons t ts ih =>
      have ht : midnight ≤ t := hday t (by simp)
      have hts : ∀ x ∈ ts, midnight ≤ x := fun x hx => hday x (by simp [hx])
      simp only [List.foldl_cons]
      rw [ih (recordUserRequest db t userId) hts,
        dailyRequestRows_record db t midnight userId ht]
      simp
      omega

/-- C3: for a non-admin user, `checkRateLimit` answers
remaining = max(0, DAILY_LIMIT − count of that user's request records created
at or after midnight) and allowed = (count < DAILY_LIMIT); after
`recordUserRequest` has run DAILY_LIMIT = 50 times within the same day the
gate answers allowed = false with remaining = 0; and admins always receive
allowed = true with the sentinel unlimited markers. -/
theorem checkRateLimit_quota
    (db : Db) (midnight : Nat) (userId : String) (times : List Nat)
    (hadmin : isUserAdmin db userId = false)
    (hlen : times.length = DAILY_REQUEST_LIMIT)
    (hday : ∀ t ∈ times, midnight ≤ t) :
    (checkRateLimit db midnight userId).allowed =
      decide ((dailyRequestRows db midnight userId).length < DAILY_REQUEST_LIMIT) ∧
    (checkRateLimit db midnight userId).remaining =
      max 0 ((DAILY_REQUEST_LIMIT : Int) -
        ((dailyRequestRows db midnight userId).length : Int)) ∧
    checkRateLimit (times.foldl (fun d t => recordUserRequest d t userId) db)
        midnight userId = ⟨false, 0, (DAILY_REQUEST_LIMIT : Int)⟩ ∧
    (∀ (db2 : Db) (u2 : String), isUserAdmin db2 u2 = true →
        checkRateLimit db2 midnight u2 = ⟨true, -1, -1⟩) := by
  refine ⟨?_, ?_, ?_, ?_⟩
  · simp [checkRateLimit, checkRateLimitFromRows, hadmin, requestCountFromRows]
  · simp [checkRateLimit, checkRateLimitFromRows, hadmin, requestCountFromRows]
  · have hadmin2 : isUserAdmin
        (times.foldl (fun d t => recordUserRequest d t userId) db) userId = false := by
      unfold isUserAdmin at hadmin ⊢
      rw [users_foldl_recordUserRequest]
      exact hadmin
    have hcount := dailyRequestRows_foldl times db midnight userId hday
    rw [hlen] at hcount
    simp only [checkRateLimit, checkRateLimitFromRows, hadmin2, Bool.false_eq_true,
      if_false, requestCountFromRows, List.head?, Option.getD_some, hcount]
    refine congrArg₂ (fun a b => RateLimitResult.mk a b (DAILY_REQUEST_LIMIT : Int)) ?_ ?_
    · simp [DAILY_REQUEST_LIMIT]
    · rw [max_eq_left]
      have : (DAILY_REQUEST_LIMIT : Int) ≤
          (((dailyRequestRows db midnight userId).length + DAILY_REQUEST_LIMIT : Nat) : Int) := by
        push_cast
        omega
      omega
  · intro db2 u2 h2
    simp [checkRateLimit, checkRateLimitFromRows, h2]

/-- C3 witness: starting from an empty store (no admin row, no requests),
50 same-day `recordUserRequest` calls drive the gate to
allowed = false, remaining = 0. -/
theorem checkRateLimit_quota_witness :
    checkRateLimit ((List.replicate 50 7).foldl
        (fun d t => recordUserRequest d t "u") ⟨[], [], [], []⟩) 3 "u" =
      ⟨false, 0, (DAILY_REQUEST_LIMIT : Int)⟩ :=
  (checkRateLimit_quota ⟨[], [], [], []⟩ 3 "u" (List.replicate 50 7) rfl
    (by decide)
    (by
      intro t ht
      rw [List.eq_of_mem_replicate ht]
      omega)).2.2.1

end AiHero
